import Mathlib

/-!
Shallow embedding of `src/testing-app/simple_thread_wrapper.h`.

The header defines three components:

* `internal::simple_thread_unlock_holder_impl` — RAII token whose constructor
  calls `m_lock.unlock()` and whose destructor calls `m_lock.lock()`;
* `internal::simple_thread_context` — per-cycle context with fields
  `m_was_timeout : bool = false` and
  `m_duration : steady_clock::duration = 0ns`, and members `was_timeout`,
  `get_timeout`, `set_timeout`, `set_was_timeout`, `get_new_timeout`;
* `simple_thread` — the worker: `start` spawns a thread running a
  wait/dispatch loop, `notify` signals the condition variable, `stop` sets the
  stop flag, signals, and joins if joinable; the destructor calls `stop`.

Durations (`std::chrono::steady_clock::duration`) are modelled as their
nanosecond tick count, a `Nat`.  Times in the wait model are abstract
instants, also `Nat`.
-/

/-- Model of `std::chrono::steady_clock::duration`: the nanosecond tick count. -/
abbrev Duration := Nat

/-! ## `internal::simple_thread_context` (simple_thread_wrapper.h, lines 125-164) -/

/-- State of one `internal::simple_thread_context` object.  Field defaults are
the in-class initializers: `m_was_timeout = false`, `m_duration = 0ns`.
(The `m_lock_holder` reference is modelled separately, by the lock-state
functions below, since it carries no data of its own.) -/
structure simple_thread_context where
  m_was_timeout : Bool := false
  m_duration : Duration := 0
  deriving Repr, DecidableEq

namespace simple_thread_context

/-- `bool was_timeout() override { return m_was_timeout; }` -/
def was_timeout (c : simple_thread_context) : Bool :=
  c.m_was_timeout

/-- `steady_clock::duration get_timeout() override { return m_duration; }` -/
def get_timeout (c : simple_thread_context) : Duration :=
  c.m_duration

/-- `void set_timeout(const steady_clock::duration & duration) override { m_duration = duration; }` -/
def set_timeout (c : simple_thread_context) (duration : Duration) : simple_thread_context :=
  { c with m_duration := duration }

/-- `void set_was_timeout(bool was_timeout) { m_was_timeout = was_timeout; }` -/
def set_was_timeout (c : simple_thread_context) (b : Bool) : simple_thread_context :=
  { c with m_was_timeout := b }

/-- `auto get_new_timeout() { return m_duration; }` -/
def get_new_timeout (c : simple_thread_context) : Duration :=
  c.m_duration

end simple_thread_context

/-- The context as the loop hands it to the user callback: a fresh
`internal::simple_thread_context ctx(lck)` after
`ctx.set_was_timeout(!wait_res); ctx.set_timeout(thread_timeout);`
(simple_thread_wrapper.h, lines 207, 218-219). -/
def cycle_ctx (thread_timeout : Duration) (wait_res : Bool) : simple_thread_context :=
  (({} : simple_thread_context).set_was_timeout (!wait_res)).set_timeout thread_timeout

/-! ## `internal::simple_thread_unlock_holder_impl` (lines 106-123)

The lock state of the loop's `std::unique_lock lck(m_thread_mutex)` within one
cycle is a `Bool` (`true` = locked).  The holder's constructor runs
`m_lock.unlock()`; its destructor runs `m_lock.lock()`. -/

/-- Effect of `simple_thread_unlock_holder_impl`'s constructor on the lock
state: `m_lock.unlock()`. -/
def holder_ctor (_locked : Bool) : Bool := false

/-- Effect of `simple_thread_unlock_holder_impl`'s destructor on the lock
state: `m_lock.lock()`. -/
def holder_dtor (_locked : Bool) : Bool := true

/-- Lock state of `lck` at the instant control leaves the callback body
(by normal return or by a thrown exception), given the number `k` of unlock
holders still live at that instant.  With no live holder the lock is held as
it was since cycle entry; a live holder's constructor has run
`m_lock.unlock()` and nothing has relocked since.  (The wrapper's contract
allows at most one live holder; the definition tolerates any `k`.) -/
def lock_at_body_exit (k : Nat) : Bool :=
  match k with
  | 0 => true
  | _ + 1 => holder_ctor true

/-- C++ scope-exit/unwinding semantics: when control leaves the callback body,
the destructor of each still-live holder runs — during stack unwinding when an
exception propagates, at scope exit on normal return — before control reaches
the loop again (its `catch` handler or the statement after the call). -/
def unwind_holders : Nat → Bool → Bool
  | 0, l => l
  | k + 1, l => unwind_holders k (holder_dtor l)

/-! ## The timed predicate wait (line 208-210)

`m_thread_cv.wait_for(lck, thread_timeout, [&]{ return pred() || m_thread_stop; })`
has the standard predicate-form semantics: the predicate is evaluated on
entry, then once per wakeup of the condition variable (a `notify_one` from
`notify()` or `stop()`), and finally when the deadline is reached; the wait
returns early, with result `true`, at the first evaluation that finds the
predicate `true`, and otherwise returns at the deadline with the predicate's
value at that instant.

The model takes the relative timeout `T`, the list `wakes` of instants
(relative to the start of the wait, in increasing order) at which the
condition variable is signalled before the deadline, and the condition's
value over time `condAt` (the C++ lambda `pred() || m_thread_stop`).
It returns the instant at which the wait returns, and the `bool` result. -/

/-- Model of `std::condition_variable::wait_for(lck, T, cond)`: evaluation
instants are entry (`0`), each signal in `wakes` that is before the deadline,
and the deadline `T`. -/
def wait_for (T : Nat) (wakes : List Nat) (condAt : Nat → Bool) : Nat × Bool :=
  match ((0 :: wakes).filter (fun t => t < T)).find? condAt with
  | some t => (t, true)
  | none => (T, condAt T)

/-! ## One iteration of the loop body (lines 203-228) -/

/-- What one execution of the user callback `fx(ctx, ...)` did: the state of
the context when control left the callback body (the callback mutates `ctx`
through the `simple_thread_context_intf` reference, and mutations made before
a throw are retained), whether an exception escaped the body, and how many
unlock holders obtained from `ctx.unlock()` were still live when control left
the body. -/
structure CbOutcome where
  ctx : simple_thread_context
  threw : Bool
  holders_live : Nat

/-- A user callback, as the loop sees it: a function of the context it is
handed. -/
abbrev Callback := simple_thread_context → CbOutcome

/-- Observable outcome of one iteration of the `while (true)` loop body. -/
structure CycleResult where
  /-- The loop body executed `return` (the "Stop requested" branch). -/
  stopped : Bool
  /-- `fx` was invoked this iteration. -/
  invoked : Bool
  /-- The context value passed to `fx`, when it was invoked. -/
  ctx_at_call : Option simple_thread_context
  /-- Number of "Exception in thread procedure..." log lines emitted by the
  `catch (...)` handler this iteration. -/
  exception_logs : Nat
  /-- Value of `thread_timeout` after `thread_timeout = ctx.get_new_timeout();`,
  i.e. the timeout for the next wait. -/
  next_timeout : Duration
  /-- Lock state of `lck` when control is back in the loop after the
  `try`/`catch` (at the `catch` handler, the `get_new_timeout` read-back, and
  thus at the start of the next iteration's wait). -/
  lock_at_boundary : Bool
  deriving Repr, DecidableEq

/-- One iteration of the thread lambda's loop body, from the lock acquisition
to the `thread_timeout = ctx.get_new_timeout();` read-back, given the values
observed this iteration: `thread_timeout`, the value of `m_thread_stop` read
after the wait, and the wait's result `wait_res`.

Mirrors lines 205-227:
a fresh `internal::simple_thread_context ctx(lck)`; after the wait, if
`m_thread_stop` then log "Stop requested" and `return` (no callback); else
`ctx.set_was_timeout(!wait_res); ctx.set_timeout(thread_timeout);` then
`try { fx(ctx, ...); } catch (...) { log; }` and
`thread_timeout = ctx.get_new_timeout();`. -/
def runCycle (thread_timeout : Duration) (stop : Bool) (wait_res : Bool)
    (cb : Callback) : CycleResult :=
  if stop then
    { stopped := true
      invoked := false
      ctx_at_call := none
      exception_logs := 0
      next_timeout := thread_timeout
      lock_at_boundary := true }
  else
    let ctx := cycle_ctx thread_timeout wait_res
    let out := cb ctx
    { stopped := false
      invoked := true
      ctx_at_call := some ctx
      exception_logs := if out.threw then 1 else 0
      next_timeout := out.ctx.get_new_timeout
      lock_at_boundary := unwind_holders out.holders_live (lock_at_body_exit out.holders_live) }

/-- One iteration including its wait: the wait runs with the current
`thread_timeout`; `m_thread_stop` is the stop flag's value at the instant the
wait returns. -/
def runCycleWait (thread_timeout : Duration) (wakes : List Nat)
    (pred : Nat → Bool) (stopAt : Nat → Bool) (cb : Callback) : CycleResult :=
  let w := wait_for thread_timeout wakes (fun t => pred t || stopAt t)
  runCycle thread_timeout (stopAt w.1) w.2 cb

/-- Per-iteration environment for a finite run of the loop: the value of
`m_thread_stop` observed after this iteration's wait, the wait's result, and
the callback's behaviour this iteration (the callback closure is fixed at
`start`, but its effect may differ between invocations). -/
structure CycleEnv where
  stop : Bool
  wait_res : Bool
  cb : Callback

/-- A finite run of the `while (true)` loop against a schedule of per-cycle
environments: each iteration is `runCycle`; the loop `return`s on an observed
stop, otherwise it carries `next_timeout` into the next iteration.  Returns
the per-iteration results and whether the loop terminated (the thread
function returned) within the schedule. -/
def runLoop (thread_timeout : Duration) : List CycleEnv → List CycleResult × Bool
  | [] => ([], false)
  | e :: rest =>
    let r := runCycle thread_timeout e.stop e.wait_res e.cb
    if r.stopped then ([r], true)
    else
      let c := runLoop r.next_timeout rest
      (r :: c.1, c.2)

/-! ## `simple_thread` lifecycle state (lines 171-259) -/

/-- Caller-visible state of a `simple_thread` object: the stop flag
(`m_thread_stop = false` in-class initializer), whether `m_thread.joinable()`
(a default-constructed `std::thread` is not joinable; `start` makes it
joinable; `join` makes it non-joinable again), and counters observing the
`notify_one` and `join` calls performed. -/
structure simple_thread_state where
  m_thread_stop : Bool := false
  m_thread_joinable : Bool := false
  notify_count : Nat := 0
  join_count : Nat := 0
  deriving Repr, DecidableEq

namespace simple_thread_state

/-- `simple_thread::stop()`: set `m_thread_stop = true` under the lock,
`m_thread_cv.notify_one()`, then `if (m_thread.joinable()) m_thread.join();`. -/
def stop (s : simple_thread_state) : simple_thread_state :=
  let s1 := { s with m_thread_stop := true }
  let s2 := { s1 with notify_count := s1.notify_count + 1 }
  if s2.m_thread_joinable then
    { s2 with m_thread_joinable := false, join_count := s2.join_count + 1 }
  else
    s2

/-- `simple_thread::notify()`: `m_thread_cv.notify_one();`. -/
def notify (s : simple_thread_state) : simple_thread_state :=
  { s with notify_count := s.notify_count + 1 }

/-- `simple_thread::~simple_thread()`: `{ stop(); }`. -/
def destructor (s : simple_thread_state) : simple_thread_state :=
  s.stop

end simple_thread_state

/-! ## Capture of the extra `start` arguments (lines 199-230)

`start` takes `_Args&&... ax` and builds `m_thread = std::thread([&]() { ...
fx(ctx, std::forward<_Args>(ax)...); ... });`: the thread lambda captures
everything — `timeout`, `pred`, `fx` and the argument pack `ax` — by
reference (`[&]`), so each invocation of `fx` reads the caller's argument
object as it is at invocation time.  An argument object is modelled as its
value over time, `store : Nat → Nat`; `start` runs at instant `0` and the
`n`-th wake cycle's invocation at instant `n`. -/

/-- Value the callback receives for a bound extra argument at a given
invocation, as the code behaves: `[&]` capture plus
`std::forward<_Args>(ax)...` pass the caller's object itself, so the
invocation sees its value at invocation time. -/
def arg_at_invocation (store : Nat → Nat) (invocation_time : Nat) : Nat :=
  store invocation_time

/-- Modelled from the spec: "Extra callback arguments: captured at `start`
time by value/move, owned by the loop closure for the lifetime of the thread,
passed by reference to each invocation" — every invocation would see the
snapshot taken when `start` ran (instant `0`). -/
def arg_at_invocation_spec (store : Nat → Nat) (_invocation_time : Nat) : Nat :=
  store 0

/-! ## Helper callbacks and lemmas -/

/-- A callback that does nothing: returns normally, touches nothing. -/
def idle_cb : Callback := fun c => ⟨c, false, 0⟩

/-- A callback that calls `ctx.set_timeout(42)` and then throws. -/
def throwing_cb : Callback := fun c => ⟨c.set_timeout 42, true, 0⟩

/-- A callback that obtains an unlock holder via `ctx.unlock()` and throws
while the holder is still live. -/
def throwing_unlock_cb : Callback := fun c => ⟨c, true, 1⟩

/-- Argument-object history: value `1` when `start` runs (instant `0`),
mutated by the caller to `2` afterwards. -/
def mutated_store : Nat → Nat := fun t => if t = 0 then 1 else 2

lemma unwind_holders_true (k : Nat) : unwind_holders k true = true := by
  induction k with
  | zero => rfl
  | succ n ih => simpa [unwind_holders, holder_dtor] using ih

lemma unwind_balances (k : Nat) :
    unwind_holders k (lock_at_body_exit k) = true := by
  cases k with
  | zero => rfl
  | succ n =>
    simpa [lock_at_body_exit, holder_ctor, unwind_holders, holder_dtor] using
      unwind_holders_true n

lemma wait_for_res_false_iff (T : Nat) (wakes : List Nat) (condAt : Nat → Bool) :
    (wait_for T wakes condAt).2 = false ↔
      ((wait_for T wakes condAt).1 = T ∧ condAt T = false) := by
  unfold wait_for
  cases h : ((0 :: wakes).filter (fun t => t < T)).find? condAt with
  | some t =>
    have hm : t ∈ (0 :: wakes).filter (fun t => t < T) :=
      List.mem_of_find?_eq_some h
    have hlt : t < T := by
      have := (List.mem_filter.mp hm).2
      exact of_decide_eq_true this
    simp only [h]
    constructor
    · intro hfalse; cases hfalse
    · rintro ⟨hT, -⟩
      exact absurd hT (Nat.ne_of_lt hlt)
  | none =>
    simp [h]

/-! ## Claims -/

/-- C1 (counterexample): `get_timeout()` does NOT keep reporting the timeout
that was active for the completed wait once the callback has called
`set_timeout`: in a cycle whose wait ran with timeout `5`, after the callback
calls `set_timeout(7)`, `get_timeout()` returns `7`, not `5` — both members
read and write the single field `m_duration`. -/
theorem C1_counterexample :
    ((cycle_ctx 5 false).set_timeout 7).get_timeout = 7 ∧
    ((cycle_ctx 5 false).set_timeout 7).get_timeout ≠ 5 := by
  decide

/-- C1 (amended): `get_timeout()` returns the timeout that was active for the
wait that just completed only as long as the callback has not yet called
`set_timeout` in this invocation; after `set_timeout(d)` it returns `d`
(`get_timeout` and `set_timeout` share the field `m_duration`).
`set_timeout` does determine the duration of the next wait: the loop's next
`thread_timeout` is the context's final `m_duration`. -/
theorem C1_amended (t d : Duration) (w : Bool) (cb : Callback) :
    (cycle_ctx t w).get_timeout = t ∧
    ((cycle_ctx t w).set_timeout d).get_timeout = d ∧
    (runCycle t false w cb).next_timeout = ((cb (cycle_ctx t w)).ctx).get_new_timeout := by
  refine ⟨rfl, rfl, rfl⟩

/-- C2: an exception thrown by the callback is caught at the loop boundary,
logged exactly once, and suppressed: the iteration does not terminate the
loop, the loop proceeds to the next wait, and the next wait's timeout is the
value the context held when the failure occurred (so a `set_timeout` executed
before the throw is honored). -/
theorem C2_exception_suppressed (t : Duration) (w : Bool) (cb : Callback)
    (rest : List CycleEnv)
    (h : (cb (cycle_ctx t w)).threw = true) :
    (runCycle t false w cb).stopped = false ∧
    (runCycle t false w cb).exception_logs = 1 ∧
    (runCycle t false w cb).next_timeout = ((cb (cycle_ctx t w)).ctx).m_duration ∧
    runLoop t ({ stop := false, wait_res := w, cb := cb } :: rest) =
      ((runCycle t false w cb) :: (runLoop (runCycle t false w cb).next_timeout rest).1,
       (runLoop (runCycle t false w cb).next_timeout rest).2) := by
  refine ⟨rfl, ?_, rfl, ?_⟩
  · simp [runCycle, h]
  · simp [runLoop, runCycle]

/-- C2 witness: a concrete throwing callback that first set the timeout to
`42`; the cycle logs once, does not stop, and the next wait uses `42`. -/
theorem C2_exception_suppressed_witness :
    (throwing_cb (cycle_ctx 5 false)).threw = true ∧
    ((runCycle 5 false false throwing_cb).stopped = false ∧
     (runCycle 5 false false throwing_cb).exception_logs = 1 ∧
     (runCycle 5 false false throwing_cb).next_timeout =
       ((throwing_cb (cycle_ctx 5 false)).ctx).m_duration ∧
     runLoop 5 ({ stop := false, wait_res := false, cb := throwing_cb } :: []) =
       ((runCycle 5 false false throwing_cb) ::
          (runLoop (runCycle 5 false false throwing_cb).next_timeout []).1,
        (runLoop (runCycle 5 false false throwing_cb).next_timeout []).2)) :=
  ⟨rfl, C2_exception_suppressed 5 false throwing_cb [] rfl⟩

/-- C3 (counterexample): a bare `notify()` before the timeout elapses does
NOT yield a prompt invocation with `was_timeout() = false`.  With timeout
`10`, a signal at instant `3`, an always-false predicate and no stop request,
the wait returns only at the deadline `10` with result `false`, and the
callback is invoked with `was_timeout() = true` — the wait is
predicate-form, so a wake at which `pred() || m_thread_stop` is false just
re-waits. -/
theorem C3_counterexample :
    wait_for 10 [3] (fun _ => false) = (10, false) ∧
    (runCycleWait 10 [3] (fun _ => false) (fun _ => false) idle_cb).ctx_at_call =
      some { m_was_timeout := true, m_duration := 10 } ∧
    (cycle_ctx 10 false).was_timeout = true := by
  decide

/-- An always-false time-indexed flag (the default predicate, and a stop flag
that is never set). -/
def never : Nat → Bool := fun _ => false

/-- A predicate that is true exactly at instant `3`. -/
def pred3 : Nat → Bool := fun u => decide (u = 3)

/-- C3 (amended): if the condition `pred() || m_thread_stop` is true at the
start of the wait or at some signalled wake before `T` elapses, and the stop
flag is not set when the wait returns, then the wait returns at such a wake —
strictly before `T`, not delayed until `T` — with result `true`, the next
callback invocation occurs on that wake, and `was_timeout()` is false on that
invocation.  (A wake at which the condition is false does not end the wait
early; a stop-induced early wake terminates the loop without an
invocation.) -/
theorem C3_amended (T : Nat) (wakes : List Nat) (pred stopAt : Nat → Bool)
    (cb : Callback) (t : Nat)
    (ht : t ∈ 0 :: wakes) (hlt : t < T)
    (hc : (pred t || stopAt t) = true)
    (hstop : stopAt (wait_for T wakes (fun u => pred u || stopAt u)).1 = false) :
    (wait_for T wakes (fun u => pred u || stopAt u)).2 = true ∧
    (wait_for T wakes (fun u => pred u || stopAt u)).1 < T ∧
    (runCycleWait T wakes pred stopAt cb).invoked = true ∧
    (runCycleWait T wakes pred stopAt cb).ctx_at_call = some (cycle_ctx T true) ∧
    (cycle_ctx T true).was_timeout = false := by
  have hmem : t ∈ (0 :: wakes).filter (fun u => u < T) :=
    List.mem_filter.mpr ⟨ht, decide_eq_true hlt⟩
  have hsome :
      (((0 :: wakes).filter (fun u => u < T)).find? (fun u => pred u || stopAt u)).isSome :=
    List.find?_isSome.mpr ⟨t, hmem, hc⟩
  obtain ⟨t', ht'⟩ := Option.isSome_iff_exists.mp hsome
  have hmem' : t' ∈ (0 :: wakes).filter (fun u => u < T) :=
    List.mem_of_find?_eq_some ht'
  have hlt' : t' < T := of_decide_eq_true (List.mem_filter.mp hmem').2
  have hw : wait_for T wakes (fun u => pred u || stopAt u) = (t', true) := by
    unfold wait_for
    rw [ht']
  rw [hw] at hstop
  rw [hw]
  refine ⟨rfl, hlt', ?_, ?_, rfl⟩
  · simp [runCycleWait, hw, runCycle, hstop]
  · simp [runCycleWait, hw, runCycle, hstop]

/-- C3 witness: timeout `10`, a signal at instant `3` at which the predicate
holds and stop is never requested: the wait returns before `10` with result
`true`, the callback is invoked on that wake, and `was_timeout() = false`. -/
theorem C3_amended_witness :
    (3 ∈ (0 :: [3]) ∧ 3 < 10 ∧ (pred3 3 || never 3) = true ∧
      never (wait_for 10 [3] (fun u => pred3 u || never u)).1 = false) ∧
    ((wait_for 10 [3] (fun u => pred3 u || never u)).2 = true ∧
     (wait_for 10 [3] (fun u => pred3 u || never u)).1 < 10 ∧
     (runCycleWait 10 [3] pred3 never idle_cb).invoked = true ∧
     (runCycleWait 10 [3] pred3 never idle_cb).ctx_at_call = some (cycle_ctx 10 true) ∧
     (cycle_ctx 10 true).was_timeout = false) :=
  ⟨⟨by decide, by decide, by decide, by decide⟩,
   C3_amended 10 [3] pred3 never idle_cb 3 (by decide) (by decide) (by decide) (by decide)⟩

/-- C4: a wake at which the stop flag is observed set terminates the loop
without invoking the callback: the run consists of that single iteration
(everything after it is discarded — the Stopped state is terminal), the
iteration reports `stopped`, and no callback invocation and no context
construction for the callback happened in it. -/
theorem C4_stop_wake (t : Duration) (e : CycleEnv) (rest : List CycleEnv)
    (h : e.stop = true) :
    runLoop t (e :: rest) = ([runCycle t true e.wait_res e.cb], true) ∧
    (runCycle t true e.wait_res e.cb).stopped = true ∧
    (runCycle t true e.wait_res e.cb).invoked = false ∧
    (runCycle t true e.wait_res e.cb).ctx_at_call = none := by
  refine ⟨?_, rfl, rfl, rfl⟩
  simp [runLoop, runCycle, h]

/-- C4 witness: a stop observed on the first wake ends a two-cycle schedule
after one iteration, with no invocation. -/
theorem C4_stop_wake_witness :
    ({ stop := true, wait_res := false, cb := idle_cb } : CycleEnv).stop = true ∧
    (runLoop 7 [{ stop := true, wait_res := false, cb := idle_cb },
                { stop := false, wait_res := false, cb := idle_cb }] =
       ([runCycle 7 true false idle_cb], true) ∧
     (runCycle 7 true false idle_cb).stopped = true ∧
     (runCycle 7 true false idle_cb).invoked = false ∧
     (runCycle 7 true false idle_cb).ctx_at_call = none) :=
  ⟨rfl, C4_stop_wake 7 { stop := true, wait_res := false, cb := idle_cb }
     [{ stop := false, wait_res := false, cb := idle_cb }] rfl⟩

lemma stop_m_thread_joinable (s : simple_thread_state) :
    s.stop.m_thread_joinable = false := by
  cases hj : s.m_thread_joinable <;> simp [simple_thread_state.stop, hj]

lemma stop_of_not_joinable (s : simple_thread_state) (hj : s.m_thread_joinable = false) :
    s.stop = { s with m_thread_stop := true, notify_count := s.notify_count + 1 } := by
  simp [simple_thread_state.stop, hj]

/-- C5: in every cycle that reaches the callback (the stop flag was not
observed set), the callback receives the context built from the wait's
result, and that context's `was_timeout()` is `true` exactly when the wait
ended by timeout expiry: it returned at the deadline `T` with the condition
`pred() || m_thread_stop` unsatisfied there (`was_timeout = !wait_res`). -/
theorem C5_was_timeout_iff (T : Nat) (wakes : List Nat) (pred stopAt : Nat → Bool)
    (cb : Callback)
    (h : stopAt (wait_for T wakes (fun u => pred u || stopAt u)).1 = false) :
    (runCycleWait T wakes pred stopAt cb).ctx_at_call =
      some (cycle_ctx T (wait_for T wakes (fun u => pred u || stopAt u)).2) ∧
    ((cycle_ctx T (wait_for T wakes (fun u => pred u || stopAt u)).2).was_timeout = true ↔
      ((wait_for T wakes (fun u => pred u || stopAt u)).1 = T ∧
        (pred T || stopAt T) = false)) := by
  constructor
  · simp [runCycleWait, runCycle, h]
  · have h2 := wait_for_res_false_iff T wakes (fun u => pred u || stopAt u)
    have h3 : (cycle_ctx T (wait_for T wakes (fun u => pred u || stopAt u)).2).was_timeout
        = !(wait_for T wakes (fun u => pred u || stopAt u)).2 := rfl
    rw [h3, Bool.not_eq_true']
    exact h2

/-- C5 witness: timeout `10`, no signal, always-false predicate, stop never
requested: the wait times out and `was_timeout()` is `true`. -/
theorem C5_was_timeout_iff_witness :
    never (wait_for 10 [] (fun u => never u || never u)).1 = false ∧
    ((runCycleWait 10 [] never never idle_cb).ctx_at_call =
       some (cycle_ctx 10 (wait_for 10 [] (fun u => never u || never u)).2) ∧
     ((cycle_ctx 10 (wait_for 10 [] (fun u => never u || never u)).2).was_timeout = true ↔
       ((wait_for 10 [] (fun u => never u || never u)).1 = 10 ∧
         (never 10 || never 10) = false))) :=
  ⟨rfl, C5_was_timeout_iff 10 [] never never idle_cb rfl⟩

/-- C6: the thread lambda in `simple_thread::start` captures the extra
arguments with `[&]` (by reference), so an invocation reads the caller's
argument object at invocation time, not a copy owned by the closure taken at
start time.  Concretely: the caller binds an argument whose value is `1` when
`start` runs and mutates it to `2` before the first wake; the invocation sees
`2`, while a start-time by-value capture would deliver `1`. -/
theorem C6_args_read_at_invocation_time :
    arg_at_invocation mutated_store 1 = 2 ∧
    arg_at_invocation_spec mutated_store 1 = 1 ∧
    arg_at_invocation mutated_store 1 ≠ arg_at_invocation_spec mutated_store 1 := by
  decide

/-- C7: if the callback never calls `set_timeout` — equivalently, it leaves
the context's `m_duration` unchanged, `set_timeout` being the only mutator of
that field — then the timeout read back for the next wait equals the timeout
of the wait just completed. -/
theorem C7_steady_state_timeout (t : Duration) (w : Bool) (cb : Callback)
    (h : ∀ c, ((cb c).ctx).m_duration = c.m_duration) :
    (runCycle t false w cb).next_timeout = t := by
  have h0 : (runCycle t false w cb).next_timeout
      = ((cb (cycle_ctx t w)).ctx).m_duration := rfl
  rw [h0, h]
  rfl

/-- C7 witness: the do-nothing callback keeps the next timeout at `9`. -/
theorem C7_steady_state_timeout_witness :
    (∀ c, ((idle_cb c).ctx).m_duration = c.m_duration) ∧
    (runCycle 9 false true idle_cb).next_timeout = 9 :=
  ⟨fun _ => rfl, C7_steady_state_timeout 9 true idle_cb (fun _ => rfl)⟩

/-- C8: `stop()` is idempotent and never blocks.  After a first `stop` the
thread handle is no longer joinable, so a second `stop` (or the destructor,
which just calls `stop`) only re-sets the flag and re-signals: it performs no
further join, and leaves the stop flag set and the handle non-joinable.
Moreover a `stop` cannot block: once the flag is set, a pending
`wait_for` — whose condition is `pred() || m_thread_stop`, now identically
true — returns immediately (at instant `0`, result `true`), and the loop
iteration that observes the flag terminates the loop without invoking the
callback, so the join completes. -/
theorem C8_stop_idempotent (s : simple_thread_state) (T : Nat) (wakes : List Nat)
    (pred : Nat → Bool) (t : Duration) (w : Bool) (cb : Callback) :
    s.stop.stop.m_thread_stop = true ∧
    s.stop.stop.m_thread_joinable = false ∧
    s.stop.stop.join_count = s.stop.join_count ∧
    s.destructor = s.stop ∧
    wait_for T wakes (fun u => pred u || true) = (0, true) ∧
    (runCycle t true w cb).stopped = true ∧
    (runCycle t true w cb).invoked = false := by
  have h1 := stop_m_thread_joinable s
  have h2 := stop_of_not_joinable s.stop h1
  refine ⟨?_, ?_, ?_, rfl, ?_, rfl, rfl⟩
  · rw [h2]
  · rw [h2]
    exact h1
  · rw [h2]
  · cases T with
    | zero =>
      have hnil : ((0 :: wakes).filter (fun u => u < 0)) = [] := by
        simp
      simp [wait_for, hnil]
    | succ n =>
      simp [wait_for, List.filter_cons, List.find?_cons]

/-- C9: whenever the callback throws — in particular while an unlock holder
obtained from `ctx.unlock()` is still live — stack unwinding runs the
holder's destructor (`m_lock.lock()`) before the loop's `catch` handler, so
the lock is held at the iteration boundary (the `catch`, the
`get_new_timeout` read-back, and the start of the next wait), and the
exception is logged; a callback failure never leaks an unlocked state into
the next cycle. -/
theorem C9_lock_held_at_boundary (t : Duration) (w : Bool) (cb : Callback)
    (h : (cb (cycle_ctx t w)).threw = true) :
    (runCycle t false w cb).lock_at_boundary = true ∧
    (runCycle t false w cb).exception_logs = 1 := by
  constructor
  · exact unwind_balances ((cb (cycle_ctx t w)).holders_live)
  · simp [runCycle, h]

/-- C9 witness: a callback that throws with one live unlock holder still
leaves the lock held at the iteration boundary. -/
theorem C9_lock_held_at_boundary_witness :
    (throwing_unlock_cb (cycle_ctx 5 false)).threw = true ∧
    ((runCycle 5 false false throwing_unlock_cb).lock_at_boundary = true ∧
     (runCycle 5 false false throwing_unlock_cb).exception_logs = 1) :=
  ⟨rfl, C9_lock_held_at_boundary 5 false throwing_unlock_cb rfl⟩

/-- C10: `stop()` on a never-started `simple_thread` (default state: flag
clear, handle not joinable) returns without joining: it sets the stop flag,
signals the condition variable once, and skips the join
(`m_thread.joinable()` is false), and the destructor — which just calls
`stop()` — does the same, so destroying a never-started instance is safe. -/
theorem C10_stop_never_started :
    ({} : simple_thread_state).stop =
      { m_thread_stop := true, m_thread_joinable := false,
        notify_count := 1, join_count := 0 } ∧
    ({} : simple_thread_state).stop.join_count = 0 ∧
    ({} : simple_thread_state).destructor = ({} : simple_thread_state).stop := by
  decide
